import Mathlib

/-!
Verification development for the VibeSwipe frontend.

The TypeScript sources are shallowly embedded: each React event handler or
effect becomes a pure Lean function from an explicit state value (the relevant
`useState` cells) and the outcome of its awaited network call to the next
state value.  JavaScript truthiness, where the source relies on it, is made
explicit (`jsTruthy`, `jsTruthyStr`).
-/

namespace VibeSwipe

/-- A JSON value, as produced by `res.json()` / consumed by `JSON.stringify`.
Numbers are modelled as integers; none of the embedded code branches on
fractional values. -/
inductive JsonValue where
  | null : JsonValue
  | bool (b : Bool) : JsonValue
  | num (n : Int) : JsonValue
  | str (s : String) : JsonValue
  | arr (elems : List JsonValue) : JsonValue
  | obj (fields : List (String × JsonValue)) : JsonValue
  deriving Repr

/-- JavaScript truthiness of a JSON value (`if (body)`). -/
def jsTruthy : JsonValue → Bool
  | .null => false
  | .bool b => b
  | .num n => n != 0
  | .str s => s != ""
  | .arr _ => true
  | .obj _ => true

/-- JavaScript truthiness of a `string | null | undefined` value
(`if (token)`, `if (spotifyError)`). -/
def jsTruthyStr : Option String → Bool
  | none => false
  | some s => s != ""

mutual

/-- `JSON.stringify` on the JSON model (string escaping elided: the embedded
claims are about when serialization happens, and the source never inspects the
serialized text). -/
def JsonValue.stringify : JsonValue → String
  | .null => "null"
  | .bool b => cond b "true" "false"
  | .num n => toString n
  | .str s => "\"" ++ s ++ "\""
  | .arr es => "[" ++ JsonValue.stringifyList es ++ "]"
  | .obj fs => "\x7b" ++ JsonValue.stringifyFields fs ++ "\x7d"

/-- Comma-separated serialization of a JSON array's elements. -/
def JsonValue.stringifyList : List JsonValue → String
  | [] => ""
  | [v] => JsonValue.stringify v
  | v :: vs => JsonValue.stringify v ++ "," ++ JsonValue.stringifyList vs

/-- Comma-separated serialization of a JSON object's fields. -/
def JsonValue.stringifyFields : List (String × JsonValue) → String
  | [] => ""
  | [(k, v)] => "\"" ++ k ++ "\":" ++ JsonValue.stringify v
  | (k, v) :: fs =>
      "\"" ++ k ++ "\":" ++ JsonValue.stringify v ++ "," ++ JsonValue.stringifyFields fs

end

/-- JavaScript property access `j.detail`: field lookup on an object, absent
(`undefined`, here `none`) on every non-object non-null value.  Access on
`null` throws in JavaScript and is handled separately by the caller. -/
def JsonValue.getField : JsonValue → String → Option JsonValue
  | .obj fs, k => fs.lookup k
  | _, _ => none

mutual

/-- JavaScript `String(v)` coercion, used by `new Error(error.detail)`. -/
def jsToString : JsonValue → String
  | .null => "null"
  | .bool b => cond b "true" "false"
  | .num n => toString n
  | .str s => s
  | .arr es => jsToStringList es
  | .obj _ => "[object Object]"

/-- `Array.prototype.toString`: elements joined by commas, `null` rendered
as the empty string. -/
def jsToStringList : List JsonValue → String
  | [] => ""
  | [.null] => ""
  | [v] => jsToString v
  | .null :: vs => "," ++ jsToStringList vs
  | v :: vs => jsToString v ++ "," ++ jsToStringList vs

end

/-! ### The request gateway (`src/unnamed/part_000` / `part_001`, function `api`)

The `api` function is split at its one suspension point: `apiRequest` builds
the outbound `fetch` request from the endpoint and options (lines 9-25), and
`apiHandleResponse` turns the transport's response into the call's outcome
(lines 27-33). -/

/-- The options record of `api` (`ApiOptions` in the source), with the
source's defaults. -/
structure ApiOptions where
  method : String := "GET"
  body : Option JsonValue := none
  token : Option String := none
  deriving Repr

/-- The argument record handed to `fetch`. -/
structure FetchRequest where
  url : String
  method : String
  headers : List (String × String)
  body : Option String
  deriving Repr

def API_BASE : String := "https://vibeswipe-production.up.railway.app"

/-- Request construction of `api` (part_000 lines 9-25): a `Content-Type`
header always, an `Authorization: Bearer <token>` header when the token is
truthy, and a `JSON.stringify`d body when the body is truthy
(`body ? JSON.stringify(body) : undefined`). -/
def apiRequest (endpoint : String) (options : ApiOptions) : FetchRequest :=
  let headers := [("Content-Type", "application/json")]
  let headers :=
    if jsTruthyStr options.token then
      headers ++ [("Authorization", "Bearer " ++ options.token.getD "")]
    else headers
  { url := API_BASE ++ endpoint
    method := options.method
    headers := headers
    body :=
      match options.body with
      | some b => if jsTruthy b then some b.stringify else none
      | none => none }

/-- The transport's response as seen by `api`: the status flag, the numeric
status, and the result of `res.json()` (`none` when the body fails to parse
as JSON). -/
structure FetchResponse where
  ok : Bool
  status : Nat
  parsedBody : Option JsonValue
  deriving Repr

/-- How a call of `api` resolves. -/
inductive ApiOutcome where
  /-- The promise resolves with the parsed JSON body. -/
  | success (body : JsonValue) : ApiOutcome
  /-- The promise rejects with `new Error(message)` thrown by `api` itself. -/
  | typedError (message : String) : ApiOutcome
  /-- The promise rejects with an exception not constructed by `api` (a JSON
  parse error of a success body, or the `TypeError` from reading `.detail`
  off a parsed `null`). -/
  | jsException : ApiOutcome
  deriving Repr

/-- Response handling of `api` (part_000 lines 27-33):
on `!res.ok`, `res.json()` is parsed with a fallback `{ detail: "Unknown error" }`,
and `new Error(error.detail || \x60HTTP $\x7bres.status\x7d\x60)` is thrown;
on `res.ok`, the parsed JSON body is returned. -/
def apiHandleResponse (res : FetchResponse) : ApiOutcome :=
  if res.ok then
    match res.parsedBody with
    | some j => .success j
    | none => .jsException
  else
    let error : JsonValue :=
      match res.parsedBody with
      | some j => j
      | none => .obj [("detail", .str "Unknown error")]
    match error with
    | .null => .jsException
    | e =>
        match e.getField "detail" with
        | some v =>
            if jsTruthy v then .typedError (jsToString v)
            else .typedError ("HTTP " ++ toString res.status)
        | none => .typedError ("HTTP " ++ toString res.status)

/-! ### The authorization-completion handler
(`src/frontend/src/pages/CallbackPage.tsx`, the effect of `CallbackPage`,
lines 9-36). -/

/-- The inputs the effect reads: the two query parameters, the stored
redirect URI, and the window origin. -/
structure CallbackParams where
  code : Option String
  errorParam : Option String
  storedRedirect : Option String
  origin : String
  deriving Repr, DecidableEq

/-- The component's state plus the externally observable actions of the
effect: the code-for-token exchange requests it issued, the stored token and
the navigation flag. -/
structure CallbackState where
  calledRef : Bool
  errorMsg : String
  exchangeCalls : List (String × String)
  storedToken : Option String
  navigatedHome : Bool
  deriving Repr, DecidableEq

/-- State on mount: `calledRef` starts `false`, no error, nothing issued. -/
def initCallbackState : CallbackState :=
  { calledRef := false, errorMsg := "", exchangeCalls := [], storedToken := none
    navigatedHome := false }

/-- One invocation of the `CallbackPage` effect (lines 11-45).  `exchange`
is the outcome of the awaited `POST /auth/callback` call, available only if
the request is actually issued. -/
def runCallbackEffect (p : CallbackParams)
    (exchange : String → String → Except String String)
    (s : CallbackState) : CallbackState :=
  if s.calledRef then s
  else
    let s := { s with calledRef := true }
    if jsTruthyStr p.errorParam then
      { s with errorMsg := "Spotify login was cancelled." }
    else if !jsTruthyStr p.code then
      { s with errorMsg := "No authorization code received." }
    else
      let code := p.code.getD ""
      let redirectUri :=
        if jsTruthyStr p.storedRedirect then p.storedRedirect.getD ""
        else p.origin ++ "/callback"
      let s := { s with exchangeCalls := s.exchangeCalls ++ [(code, redirectUri)] }
      match exchange code redirectUri with
      | .ok tok => { s with storedToken := some tok, navigatedHome := true }
      | .error msg => { s with errorMsg := msg }

/-! ### The swipe flow, playlist-scoped variant
(`src/frontend/src/pages/SwipeDeckPage.tsx`). -/

/-- A track of the swipe deck (`SwipeTrack` in `src/unnamed/part_001`). -/
structure SwipeTrack where
  id : String
  title : String
  artist : String
  album : String
  album_image : Option String
  preview_url : String
  spotify_uri : String
  deriving Repr, DecidableEq

/-- A playlist summary (`Playlist` in `SwipeDeckPage.tsx`). -/
structure Playlist where
  id : String
  name : String
  image : Option String
  total_tracks : Nat
  owner : String
  deriving Repr, DecidableEq

/-- The `Phase` union of `SwipeDeckPage.tsx`:
`"pick-playlist" | "loading" | "swiping" | "empty"`. -/
inductive SwipePhase where
  | pickPlaylist | loading | swiping | empty
  deriving Repr, DecidableEq

/-- A swipe direction. -/
inductive SwipeDir where
  | left | right
  deriving Repr, DecidableEq

/-- The `useState` cells of `SwipeDeckPage` that the flow logic touches. -/
structure SwipeState where
  phase : SwipePhase
  deck : List SwipeTrack
  currentIndex : Nat
  errorMsg : String
  swipeLabel : Option String
  savedCount : Nat
  skippedCount : Nat
  selectedPlaylist : Option Playlist
  deriving Repr, DecidableEq

/-- The initial state of `SwipeDeckPage` (the `useState` initializers). -/
def initialSwipeState : SwipeState :=
  { phase := .pickPlaylist, deck := [], currentIndex := 0, errorMsg := ""
    swipeLabel := none, savedCount := 0, skippedCount := 0, selectedPlaylist := none }

/-- `currentTrack` of `SwipeDeckPage` (line 40): `deck[currentIndex] ?? null`. -/
def currentTrack (s : SwipeState) : Option SwipeTrack :=
  s.deck[s.currentIndex]?

/-- The empty-deck message of `loadDeck` (line 53). -/
def emptyDeckMessage : String :=
  "Keine passenden Songs mit Preview gefunden. Versuch eine andere Playlist!"

/-- `loadDeck` of `SwipeDeckPage.tsx` (lines 44-64), with the awaited
`getSwipeDeck` call's outcome passed in explicitly. -/
def loadDeck (s : SwipeState) (playlist : Playlist)
    (outcome : Except String (List SwipeTrack)) : SwipeState :=
  let s := { s with phase := .loading, errorMsg := "", selectedPlaylist := some playlist
                    savedCount := 0, skippedCount := 0 }
  match outcome with
  | .ok tracks =>
      if tracks.length = 0 then
        { s with errorMsg := emptyDeckMessage, phase := .pickPlaylist }
      else
        { s with deck := tracks, currentIndex := 0, phase := .swiping }
  | .error msg => { s with errorMsg := msg, phase := .pickPlaylist }

/-- `advanceCard` of `SwipeDeckPage.tsx` (lines 79-103).  `saveSucceeds` is
the outcome of the awaited `saveTrack` call on a right swipe; a failed save is
swallowed (`/* silent fail */`), so `savedCount` is only incremented when the
save succeeded.  The card advance itself is outside the `try`. -/
def advanceCard (s : SwipeState) (dir : SwipeDir) (saveSucceeds : Bool) : SwipeState :=
  match currentTrack s, s.selectedPlaylist with
  | some _, some _ =>
      let s :=
        match dir with
        | .right => if saveSucceeds then { s with savedCount := s.savedCount + 1 } else s
        | .left => { s with skippedCount := s.skippedCount + 1 }
      let s := { s with swipeLabel := none }
      if s.currentIndex + 1 ≥ s.deck.length then
        { s with phase := .empty }
      else
        { s with currentIndex := s.currentIndex + 1 }
  | _, _ => s

/-- One swipe decision: the direction, and whether the background save call
would succeed (consulted only on a right swipe). -/
structure Decision where
  dir : SwipeDir
  saveSucceeds : Bool
  deriving Repr, DecidableEq

/-- Run a sequence of swipe decisions through `advanceCard`. -/
def runDecisions : List Decision → SwipeState → SwipeState
  | [], s => s
  | d :: ds, s => runDecisions ds (advanceCard s d.dir d.saveSucceeds)

/-- The discard decisions of a sequence. -/
def discards (ds : List Decision) : Nat :=
  (ds.filter fun d => d.dir == SwipeDir.left).length

/-- The keep decisions of a sequence whose save call succeeds. -/
def keptSaves (ds : List Decision) : Nat :=
  (ds.filter fun d => d.dir == SwipeDir.right && d.saveSucceeds).length

/-! ### The swipe flow, fixed-deck variant (`src/unnamed/part_002`). -/

/-- The `Phase` union of part_002: `"intro" | "swiping" | "empty"`. -/
inductive SwipePhase2 where
  | intro | swiping | empty
  deriving Repr, DecidableEq

/-- The `useState` cells of the fixed-deck `SwipeDeckPage` (part_002). -/
structure SwipeState2 where
  phase : SwipePhase2
  deck : List SwipeTrack
  currentIndex : Nat
  loading : Bool
  errorMsg : String
  swipeLabel : Option String
  savedCount : Nat
  skippedCount : Nat
  deriving Repr, DecidableEq

/-- The initial state of the fixed-deck `SwipeDeckPage`. -/
def initialSwipeState2 : SwipeState2 :=
  { phase := .intro, deck := [], currentIndex := 0, loading := false, errorMsg := ""
    swipeLabel := none, savedCount := 0, skippedCount := 0 }

/-- The empty-deck message of part_002's `loadDeck` (line 29). -/
def emptyDeckMessage2 : String :=
  "Keine Song-Vorschläge mit Preview verfügbar. Versuche es später nochmal!"

/-- `loadDeck` of part_002 (lines 23-39): on an empty result only the message
is set (the phase is untouched); on a failure the error is recorded; the
`finally` clears the loading flag. -/
def loadDeck2 (s : SwipeState2)
    (outcome : Except String (List SwipeTrack)) : SwipeState2 :=
  let s := { s with loading := true, errorMsg := "" }
  let s :=
    match outcome with
    | .ok tracks =>
        if tracks.length = 0 then { s with errorMsg := emptyDeckMessage2 }
        else { s with deck := tracks, currentIndex := 0 }
    | .error msg => { s with errorMsg := msg }
  { s with loading := false }

/-- `handleStart` of part_002 (lines 57-60): awaits `loadDeck` and then sets
the phase to `"swiping"` unconditionally. -/
def handleStart (s : SwipeState2)
    (outcome : Except String (List SwipeTrack)) : SwipeState2 :=
  { loadDeck2 s outcome with phase := .swiping }

/-- `advanceCard` of part_002 (lines 62-88); identical to the playlist-scoped
variant except that there is no selected-playlist guard. -/
def advanceCard2 (s : SwipeState2) (dir : SwipeDir) (saveSucceeds : Bool) : SwipeState2 :=
  match s.deck[s.currentIndex]? with
  | some _ =>
      let s :=
        match dir with
        | .right => if saveSucceeds then { s with savedCount := s.savedCount + 1 } else s
        | .left => { s with skippedCount := s.skippedCount + 1 }
      let s := { s with swipeLabel := none }
      if s.currentIndex + 1 ≥ s.deck.length then
        { s with phase := .empty }
      else
        { s with currentIndex := s.currentIndex + 1 }
  | none => s

/-! ### The playlist-generation wizards
(`src/frontend/src/pages/DailyDrivePage.tsx`,
`src/frontend/src/pages/GymPlaylistPage.tsx`). -/

/-- The `Step` union of both wizards: `"select" | "generating" | "done"`. -/
inductive WizardStep where
  | select | generating | done
  deriving Repr, DecidableEq

/-- `DailyDriveResult` of `DailyDrivePage.tsx`. -/
structure DailyDriveResult where
  playlist_url : String
  playlist_id : String
  playlist_name : String
  total_tracks : Nat
  on_repeat_count : Nat
  new_discoveries_count : Nat
  episodes_count : Nat
  deriving Repr, DecidableEq

/-- The `useState` cells of `DailyDrivePage` that the wizard logic touches.
The JavaScript `Set<string>` of selected show ids is modelled as a list in
insertion order. -/
structure DailyDriveState where
  step : WizardStep
  selectedShowIds : List String
  errorMsg : String
  result : Option DailyDriveResult
  generatingStep : Nat
  deriving Repr, DecidableEq

/-- `handleGenerate` of `DailyDrivePage.tsx` (lines 84-101), with the awaited
`POST /daily-drive/generate` outcome passed in explicitly; on failure the
gateway's error message is shown (`err.message`). -/
def dailyHandleGenerate (s : DailyDriveState)
    (outcome : Except String DailyDriveResult) : DailyDriveState :=
  let s := { s with errorMsg := "", step := .generating, generatingStep := 0 }
  match outcome with
  | .ok data => { s with result := some data, step := .done }
  | .error msg => { s with errorMsg := msg, step := .select }

/-- `handleReset` of `DailyDrivePage.tsx` (lines 103-108): clears the show
selection. -/
def dailyHandleReset (s : DailyDriveState) : DailyDriveState :=
  { s with step := .select, result := none, selectedShowIds := [], generatingStep := 0 }

/-- `GymPlaylistResult` of `GymPlaylistPage.tsx`. -/
structure GymPlaylistResult where
  playlist_url : String
  playlist_id : String
  playlist_name : String
  total_tracks : Nat
  inspiration_count : Nat
  auto_refresh : Bool
  deriving Repr, DecidableEq

/-- The `useState` cells of `GymPlaylistPage` that the wizard logic touches. -/
structure GymState where
  step : WizardStep
  selectedIds : List String
  autoRefresh : Bool
  errorMsg : String
  result : Option GymPlaylistResult
  generatingStep : Nat
  deriving Repr, DecidableEq

/-- `handleGenerate` of `GymPlaylistPage.tsx` (lines 113-131). -/
def gymHandleGenerate (s : GymState)
    (outcome : Except String GymPlaylistResult) : GymState :=
  let s := { s with errorMsg := "", step := .generating, generatingStep := 0 }
  match outcome with
  | .ok data =>
      { s with result := some data, autoRefresh := data.auto_refresh, step := .done }
  | .error msg => { s with errorMsg := msg, step := .select }

/-- `handleReset` of `GymPlaylistPage.tsx` (lines 133-137): the playlist
selection is left untouched. -/
def gymHandleReset (s : GymState) : GymState :=
  { s with step := .select, result := none, generatingStep := 0 }

/-! ### The prompt-discovery like/dismiss sets (`src/unnamed/part_006`). -/

/-- The two `Set<number>` cells of `DiscoverPage` (part_006 lines 35-36). -/
structure DiscoverLikeState where
  liked : Finset ℕ
  dismissed : Finset ℕ
  deriving DecidableEq

/-- The initial state: both sets empty. -/
def initDiscoverLikeState : DiscoverLikeState := ⟨∅, ∅⟩

/-- `toggleLike` of part_006 (lines 83-99): un-like if present, otherwise
like and remove the index from the dismissed set. -/
def toggleLike (idx : ℕ) (s : DiscoverLikeState) : DiscoverLikeState :=
  if idx ∈ s.liked then { s with liked := s.liked.erase idx }
  else { liked := insert idx s.liked, dismissed := s.dismissed.erase idx }

/-- `toggleDismiss` of part_006 (lines 101-117): un-dismiss if present,
otherwise dismiss and remove the index from the liked set. -/
def toggleDismiss (idx : ℕ) (s : DiscoverLikeState) : DiscoverLikeState :=
  if idx ∈ s.dismissed then { s with dismissed := s.dismissed.erase idx }
  else { dismissed := insert idx s.dismissed, liked := s.liked.erase idx }

/-- One user interaction on the discovery result list. -/
inductive ToggleOp where
  | like (idx : ℕ)
  | dismiss (idx : ℕ)
  deriving Repr, DecidableEq

/-- Run a sequence of like/dismiss interactions. -/
def runToggles : List ToggleOp → DiscoverLikeState → DiscoverLikeState
  | [], s => s
  | .like i :: ops, s => runToggles ops (toggleLike i s)
  | .dismiss i :: ops, s => runToggles ops (toggleDismiss i s)

/-! ### The deck fetch (`src/unnamed/part_001`, `getSwipeDeck`) and the
backend's preview filter. -/

/-- A candidate track as known to the provider, before the backend's preview
filter: the preview reference may be missing. -/
structure RawTrack where
  id : String
  title : String
  artist : String
  album : String
  album_image : Option String
  preview_url : Option String
  spotify_uri : String
  deriving Repr, DecidableEq

/-- Modelled from the spec: the backend `GET /discover/swipe` endpoint is not
part of the repository's sources under `src/` (only its frontend caller
`getSwipeDeck` is).  Per the spec, "a track lacking a playable preview is
excluded from the deck at fetch time", so the endpoint returns exactly the
candidate tracks carrying a non-empty preview reference. -/
def swipeDeckEndpoint (candidates : List RawTrack) : List SwipeTrack :=
  (candidates.filter fun t =>
    match t.preview_url with
    | some u => u != ""
    | none => false).map fun t =>
      { id := t.id, title := t.title, artist := t.artist, album := t.album
        album_image := t.album_image, preview_url := t.preview_url.getD ""
        spotify_uri := t.spotify_uri }

/-- `getSwipeDeck` of part_001 (lines 52-56): unwraps the endpoint response's
`tracks` field unchanged. -/
def getSwipeDeck (candidates : List RawTrack) : List SwipeTrack :=
  swipeDeckEndpoint candidates

/-! ### Concrete example data for witnesses and counterexamples. -/

/-- A concrete deck track. -/
def sampleTrack : SwipeTrack :=
  { id := "t1", title := "Track One", artist := "Artist", album := "Album"
    album_image := none, preview_url := "https://p.scdn.co/t1"
    spotify_uri := "spotify:track:t1" }

/-- A second concrete deck track. -/
def sampleTrack2 : SwipeTrack :=
  { id := "t2", title := "Track Two", artist := "Artist", album := "Album"
    album_image := none, preview_url := "https://p.scdn.co/t2"
    spotify_uri := "spotify:track:t2" }

/-- A concrete playlist. -/
def samplePlaylist : Playlist :=
  { id := "p1", name := "Focus", image := none, total_tracks := 12, owner := "me" }

/-- A concrete provider candidate carrying a preview. -/
def sampleRawTrack : RawTrack :=
  { id := "t1", title := "Track One", artist := "Artist", album := "Album"
    album_image := none, preview_url := some "https://p.scdn.co/t1"
    spotify_uri := "spotify:track:t1" }

/-- A concrete provider candidate lacking a preview. -/
def sampleRawTrackNoPreview : RawTrack :=
  { id := "t2", title := "Track Two", artist := "Artist", album := "Album"
    album_image := none, preview_url := none
    spotify_uri := "spotify:track:t2" }

/-- Every invocation of the effect leaves the one-shot latch set. -/
theorem calledRef_runCallbackEffect (p : CallbackParams)
    (ex : String → String → Except String String) (s : CallbackState) :
    (runCallbackEffect p ex s).calledRef = true := by
  by_cases h : s.calledRef = true
  · simp [runCallbackEffect, h]
  · simp only [runCallbackEffect, h]
    simp only [Bool.false_eq_true, if_false]
    split
    · rfl
    · split
      · rfl
      · split <;> rfl

/-- An invocation on a state whose latch is already set is a no-op. -/
theorem runCallbackEffect_of_called {s : CallbackState} (h : s.calledRef = true)
    (p : CallbackParams) (ex : String → String → Except String String) :
    runCallbackEffect p ex s = s := by
  simp [runCallbackEffect, h]

/-- A single invocation issues at most one exchange request beyond those
already issued. -/
theorem exchangeCalls_runCallbackEffect (p : CallbackParams)
    (ex : String → String → Except String String) (s : CallbackState) :
    (runCallbackEffect p ex s).exchangeCalls.length ≤ s.exchangeCalls.length + 1 := by
  by_cases h : s.calledRef = true
  · simp [runCallbackEffect, h]
  · simp only [runCallbackEffect, h]
    simp only [Bool.false_eq_true, if_false]
    split
    · simp
    · split
      · simp
      · split <;> simp

/-- C1: the authorization-completion effect is guarded by the `calledRef`
one-shot latch, so a second invocation with the same parameters (and hence the
same one-time code) is a no-op, and starting from the mount state the
code-for-token exchange request is issued at most once across the two
invocations. -/
theorem callback_exchange_at_most_once (p : CallbackParams)
    (ex : String → String → Except String String) (s : CallbackState) :
    runCallbackEffect p ex (runCallbackEffect p ex s) = runCallbackEffect p ex s ∧
    (runCallbackEffect p ex
        (runCallbackEffect p ex initCallbackState)).exchangeCalls.length ≤ 1 := by
  refine ⟨runCallbackEffect_of_called (calledRef_runCallbackEffect p ex s) p ex, ?_⟩
  rw [runCallbackEffect_of_called (calledRef_runCallbackEffect p ex initCallbackState) p ex]
  have h := exchangeCalls_runCallbackEffect p ex initCallbackState
  simpa [initCallbackState] using h

/-- C4 counterexample: the claim says the typed error's message is the body's
`detail` field whenever that field is present, but a present-but-empty
`detail` is falsy in `error.detail || ...`, so the gateway reports the HTTP
fallback instead of the empty detail. -/
theorem api_detail_empty_counterexample :
    apiHandleResponse
        { ok := false, status := 500
          parsedBody := some (.obj [("detail", .str "")]) } =
      .typedError "HTTP 500" ∧
    "HTTP 500" ≠ "" := by
  refine ⟨rfl, by decide⟩

/-- C4 (amended): for every gateway call whose HTTP response has a non-success
status, the raised typed error's message is the body's `detail` field when
that field is present as a non-empty string; a present-but-empty `detail`, or
an absent one, yields the fallback carrying the HTTP status; an error body
that fails to parse as JSON degrades to the generic "Unknown error" message
without a parse exception; and a non-success response never resolves
successfully.  On a success status the parsed JSON body is returned. -/
theorem api_error_normalization (res : FetchResponse) :
    (res.ok = false →
      (res.parsedBody = none →
        apiHandleResponse res = .typedError "Unknown error") ∧
      (∀ j d, res.parsedBody = some j → j.getField "detail" = some (.str d) →
        d ≠ "" → apiHandleResponse res = .typedError d) ∧
      (∀ j, res.parsedBody = some j → j.getField "detail" = some (.str "") →
        apiHandleResponse res = .typedError ("HTTP " ++ toString res.status)) ∧
      (∀ j, res.parsedBody = some j → j ≠ .null → j.getField "detail" = none →
        apiHandleResponse res = .typedError ("HTTP " ++ toString res.status)) ∧
      (∀ b, apiHandleResponse res ≠ .success b)) ∧
    (res.ok = true → ∀ j, res.parsedBody = some j →
      apiHandleResponse res = .success j) := by
  obtain ⟨ok, status, body⟩ := res
  constructor
  · rintro rfl
    refine ⟨?_, ?_, ?_, ?_, ?_⟩
    · rintro rfl
      rfl
    · rintro j d rfl hget hd
      cases j <;> simp [JsonValue.getField] at hget
      simp [apiHandleResponse, JsonValue.getField, hget, jsTruthy, jsToString, hd]
    · rintro j rfl hget
      cases j <;> simp [JsonValue.getField] at hget
      simp [apiHandleResponse, JsonValue.getField, hget, jsTruthy]
    · rintro j rfl hnull hget
      cases j with
      | null => exact absurd rfl hnull
      | bool v => simp [apiHandleResponse, JsonValue.getField]
      | num n => simp [apiHandleResponse, JsonValue.getField]
      | str s => simp [apiHandleResponse, JsonValue.getField]
      | arr es => simp [apiHandleResponse, JsonValue.getField]
      | obj fs =>
          simp only [JsonValue.getField] at hget
          simp [apiHandleResponse, JsonValue.getField, hget]
    · intro b
      cases body with
      | none =>
          have h : apiHandleResponse { ok := false, status := status, parsedBody := none } =
              .typedError "Unknown error" := rfl
          simp [h]
      | some j =>
          cases j with
          | null => simp [apiHandleResponse]
          | bool v => simp [apiHandleResponse, JsonValue.getField]
          | num n => simp [apiHandleResponse, JsonValue.getField]
          | str s => simp [apiHandleResponse, JsonValue.getField]
          | arr es => simp [apiHandleResponse, JsonValue.getField]
          | obj fs =>
              simp only [apiHandleResponse, Bool.false_eq_true, if_false,
                JsonValue.getField]
              split
              · split <;> simp
              · simp
  · rintro rfl j rfl
    rfl

/-- C4 witness: a `404` response with body `{"detail": "Not found"}` raises
the typed error `"Not found"`. -/
theorem api_error_normalization_witness :
    apiHandleResponse
        { ok := false, status := 404
          parsedBody := some (.obj [("detail", .str "Not found")]) } =
      .typedError "Not found" :=
  ((api_error_normalization
      { ok := false, status := 404
        parsedBody := some (.obj [("detail", .str "Not found")]) }).1 rfl).2.1
    (.obj [("detail", .str "Not found")]) "Not found" rfl rfl (by decide)

/-- C8 counterexample: the claim says the request body is JSON-serialized
exactly when a body is supplied, but `body ? JSON.stringify(body) : undefined`
tests JavaScript truthiness, so a supplied falsy body (here the JSON value
`false`) is dropped from the request. -/
theorem api_body_falsy_counterexample :
    (({ method := "POST", body := some (JsonValue.bool false) } : ApiOptions).body).isSome
        = true ∧
    (apiRequest "/library/save"
        { method := "POST", body := some (JsonValue.bool false) }).body = none :=
  ⟨rfl, rfl⟩

/-- C8 (amended): the `Authorization` header, valued exactly `Bearer `
followed by the token, is attached iff a non-empty token is supplied (an
absent or empty token yields no `Authorization` header), and the request body
is the JSON serialization of the supplied body exactly when the supplied body
is truthy — an absent body, or a supplied falsy one, yields no request
body. -/
theorem api_request_contract (endpoint : String) (o : ApiOptions) :
    (∀ t, o.token = some t → t ≠ "" →
      (apiRequest endpoint o).headers.lookup "Authorization" =
        some ("Bearer " ++ t)) ∧
    (jsTruthyStr o.token = false →
      (apiRequest endpoint o).headers.lookup "Authorization" = none) ∧
    (∀ b, o.body = some b → jsTruthy b = true →
      (apiRequest endpoint o).body = some b.stringify) ∧
    (∀ b, o.body = some b → jsTruthy b = false →
      (apiRequest endpoint o).body = none) ∧
    (o.body = none → (apiRequest endpoint o).body = none) := by
  refine ⟨?_, ?_, ?_, ?_, ?_⟩
  · intro t ht hne
    simp [apiRequest, jsTruthyStr, ht, hne, List.lookup]
  · intro h
    simp [apiRequest, h, List.lookup]
  · intro b hb htr
    simp [apiRequest, hb, htr]
  · intro b hb htr
    simp [apiRequest, hb, htr]
  · intro h
    simp [apiRequest, h]

/-- C8 witness: a call with token `"tok123"` and a JSON-object body carries
`Authorization: Bearer tok123` and the serialized body. -/
theorem api_request_contract_witness :
    (apiRequest "/me" { token := some "tok123" }).headers.lookup "Authorization" =
        some ("Bearer " ++ "tok123") ∧
    (apiRequest "/library/save"
        { method := "POST", body := some (.obj [("track_ids", .arr [.str "t1"])])
          token := some "tok123" }).body =
      some (JsonValue.obj [("track_ids", .arr [.str "t1"])]).stringify :=
  ⟨(api_request_contract "/me" { token := some "tok123" }).1 "tok123" rfl (by decide),
   (api_request_contract "/library/save"
      { method := "POST", body := some (.obj [("track_ids", .arr [.str "t1"])])
        token := some "tok123" }).2.2.1
      (.obj [("track_ids", .arr [.str "t1"])]) rfl rfl⟩

/-- One `advanceCard` step from a valid presenting position: the deck and the
selected playlist are untouched, the counters record the decision (a keep only
counts when its save succeeded), and the position advances by exactly one —
into the `empty` phase when the card was the last one. -/
theorem advanceCard_step (s : SwipeState) (dir : SwipeDir) (sv : Bool)
    (hpl : s.selectedPlaylist.isSome = true)
    (hidx : s.currentIndex < s.deck.length) :
    (advanceCard s dir sv).deck = s.deck ∧
    (advanceCard s dir sv).selectedPlaylist = s.selectedPlaylist ∧
    (advanceCard s dir sv).savedCount =
      s.savedCount + (if dir == SwipeDir.right && sv then 1 else 0) ∧
    (advanceCard s dir sv).skippedCount =
      s.skippedCount + (if dir == SwipeDir.left then 1 else 0) ∧
    (s.currentIndex + 1 < s.deck.length →
      (advanceCard s dir sv).currentIndex = s.currentIndex + 1 ∧
      (advanceCard s dir sv).phase = s.phase) ∧
    (s.currentIndex + 1 = s.deck.length →
      (advanceCard s dir sv).phase = SwipePhase.empty ∧
      (advanceCard s dir sv).currentIndex = s.currentIndex) := by
  have ht : currentTrack s = some s.deck[s.currentIndex] := by
    simp [currentTrack, List.getElem?_eq_getElem hidx]
  obtain ⟨pl, hp⟩ := Option.isSome_iff_exists.mp hpl
  unfold advanceCard
  rw [ht, hp]
  cases dir <;> cases sv <;> by_cases hlast : s.currentIndex + 1 ≥ s.deck.length <;>
    simp [hlast] <;> first | omega | exact hp | exact ⟨hp, by omega⟩

/-- One `advanceCard` step of the fixed-deck variant from a valid presenting
position: same advancement behaviour as the playlist-scoped variant. -/
theorem advanceCard2_step (s : SwipeState2) (dir : SwipeDir) (sv : Bool)
    (hidx : s.currentIndex < s.deck.length) :
    (advanceCard2 s dir sv).deck = s.deck ∧
    (s.currentIndex + 1 < s.deck.length →
      (advanceCard2 s dir sv).currentIndex = s.currentIndex + 1 ∧
      (advanceCard2 s dir sv).phase = s.phase) ∧
    (s.currentIndex + 1 = s.deck.length →
      (advanceCard2 s dir sv).phase = SwipePhase2.empty ∧
      (advanceCard2 s dir sv).currentIndex = s.currentIndex) := by
  have ht : s.deck[s.currentIndex]? = some s.deck[s.currentIndex] :=
    List.getElem?_eq_getElem hidx
  unfold advanceCard2
  rw [ht]
  cases dir <;> cases sv <;> by_cases hlast : s.currentIndex + 1 ≥ s.deck.length <;>
    simp [hlast] <;> omega

/-- Unfolding lemma: the successful keeps of a decision sequence, head
first. -/
theorem keptSaves_cons (d : Decision) (ds : List Decision) :
    keptSaves (d :: ds) =
      (if (d.dir == SwipeDir.right && d.saveSucceeds) = true then 1 else 0) +
        keptSaves ds := by
  by_cases h : (d.dir == SwipeDir.right && d.saveSucceeds) = true <;>
    (simp [keptSaves, List.filter_cons, h]; try omega)

/-- Unfolding lemma: the discards of a decision sequence, head first. -/
theorem discards_cons (d : Decision) (ds : List Decision) :
    discards (d :: ds) =
      (if (d.dir == SwipeDir.left) = true then 1 else 0) + discards ds := by
  by_cases h : (d.dir == SwipeDir.left) = true <;>
    (simp [discards, List.filter_cons, h]; try omega)

/-- Running a decision sequence that is shorter than the remaining deck keeps
the flow presenting: the phase is unchanged and the index advances by exactly
the number of decisions. -/
theorem runDecisions_progress (ds : List Decision) :
    ∀ s : SwipeState, s.selectedPlaylist.isSome = true →
      s.currentIndex + ds.length < s.deck.length →
      (runDecisions ds s).phase = s.phase ∧
      (runDecisions ds s).currentIndex = s.currentIndex + ds.length := by
  induction ds with
  | nil => intro s _ _; simp [runDecisions]
  | cons d ds ih =>
      intro s hpl hlen
      have hidx : s.currentIndex < s.deck.length := by
        simp at hlen; omega
      obtain ⟨hdeck, hsel, _, _, hadv, _⟩ :=
        advanceCard_step s d.dir d.saveSucceeds hpl hidx
      have hlt : s.currentIndex + 1 < s.deck.length := by
        simp at hlen; omega
      obtain ⟨hcur, hph⟩ := hadv hlt
      have ih' := ih (advanceCard s d.dir d.saveSucceeds)
        (by rw [hsel]; exact hpl)
        (by rw [hcur, hdeck]; simp at hlen ⊢; omega)
      simp only [runDecisions]
      refine ⟨by rw [ih'.1, hph], by rw [ih'.2, hcur]; simp [List.length_cons]; omega⟩

/-- Running a decision sequence that exactly exhausts the remaining deck ends
in the `empty` phase with the counters recording the discards and the
successful keeps. -/
theorem runDecisions_exhaust (ds : List Decision) :
    ∀ s : SwipeState, s.selectedPlaylist.isSome = true →
      s.currentIndex + ds.length = s.deck.length →
      ds ≠ [] →
      (runDecisions ds s).phase = SwipePhase.empty ∧
      (runDecisions ds s).savedCount = s.savedCount + keptSaves ds ∧
      (runDecisions ds s).skippedCount = s.skippedCount + discards ds := by
  induction ds with
  | nil => intro s _ _ h; exact absurd rfl h
  | cons d ds ih =>
      intro s hpl hlen _
      have hidx : s.currentIndex < s.deck.length := by
        simp at hlen; omega
      obtain ⟨hdeck, hsel, hsaved, hskip, hadv, hfin⟩ :=
        advanceCard_step s d.dir d.saveSucceeds hpl hidx
      cases ds with
      | nil =>
          have hl : s.currentIndex + 1 = s.deck.length := by
            simp at hlen; omega
          obtain ⟨hph, _⟩ := hfin hl
          simp only [runDecisions]
          refine ⟨hph, ?_, ?_⟩
          · rw [hsaved, keptSaves_cons]
            simp [keptSaves]
          · rw [hskip, discards_cons]
            simp [discards]
      | cons d2 ds2 =>
          have hlt : s.currentIndex + 1 < s.deck.length := by
            simp at hlen; omega
          obtain ⟨hcur, _⟩ := hadv hlt
          have ih' := ih (advanceCard s d.dir d.saveSucceeds)
            (by rw [hsel]; exact hpl)
            (by rw [hcur, hdeck]; simp at hlen ⊢; omega)
            (by simp)
          simp only [runDecisions] at ih' ⊢
          refine ⟨ih'.1, ?_, ?_⟩
          · rw [ih'.2.1, hsaved, keptSaves_cons d (d2 :: ds2)]
            omega
          · rw [ih'.2.2, hskip, discards_cons d (d2 :: ds2)]
            omega

/-- When every keep decision's save succeeds, the two counters together
account for every decision. -/
theorem keptSaves_add_discards (ds : List Decision)
    (h : ∀ d ∈ ds, d.dir = SwipeDir.right → d.saveSucceeds = true) :
    keptSaves ds + discards ds = ds.length := by
  induction ds with
  | nil => simp [keptSaves, discards]
  | cons d ds ih =>
      have ih' := ih fun x hx => h x (List.mem_cons_of_mem d hx)
      obtain ⟨dir, sv⟩ := d
      cases dir with
      | left =>
          simp [keptSaves, discards] at ih' ⊢
          omega
      | right =>
          have hsv : sv = true := h ⟨SwipeDir.right, sv⟩ (List.mem_cons_self _ _) rfl
          subst hsv
          simp [keptSaves, discards] at ih' ⊢
          omega

/-- A successful non-empty deck load from any state yields the presenting
start state: swiping at index 0 with cleared counters and the chosen playlist
selected. -/
theorem loadDeck_ok (s : SwipeState) (pl : Playlist) (deck : List SwipeTrack)
    (h : deck.length ≠ 0) :
    loadDeck s pl (.ok deck) =
      { phase := .swiping, deck := deck, currentIndex := 0, errorMsg := ""
        swipeLabel := s.swipeLabel, savedCount := 0, skippedCount := 0
        selectedPlaylist := some pl } := by
  simp [loadDeck, h]

/-- C2 counterexample: the claim says kept-count plus discarded-count equals
the deck length at exhaustion regardless of the save outcomes, but a keep
whose background save fails increments neither counter (the increment sits
after the `await` inside the `try`), so a one-card deck exhausted by a keep
with a failing save ends with counter sum 0, not 1. -/
theorem swipe_counts_counterexample :
    (runDecisions [⟨SwipeDir.right, false⟩]
        (loadDeck initialSwipeState samplePlaylist (.ok [sampleTrack]))).phase =
      SwipePhase.empty ∧
    (runDecisions [⟨SwipeDir.right, false⟩]
        (loadDeck initialSwipeState samplePlaylist (.ok [sampleTrack]))).savedCount +
      (runDecisions [⟨SwipeDir.right, false⟩]
          (loadDeck initialSwipeState samplePlaylist (.ok [sampleTrack]))).skippedCount =
        0 ∧
    (0 : ℕ) ≠ 1 := by
  refine ⟨by decide, by decide, by decide⟩

/-- C2 (amended): for a deck of length N ≥ 1, exactly N swipe decisions move
the flow from presenting to exhausted — any shorter run is still presenting —
and at exhaustion the discarded counter equals the number of discard
decisions while the kept counter equals the number of keep decisions whose
background save succeeded; hence kept + discarded = N exactly when every
keep's save succeeded (a keep with a failed save counts in neither). -/
theorem swipe_deck_exhaustion (pl : Playlist) (deck : List SwipeTrack)
    (ds : List Decision) (hN : 1 ≤ deck.length) (hlen : ds.length = deck.length) :
    (runDecisions ds (loadDeck initialSwipeState pl (.ok deck))).phase =
      SwipePhase.empty ∧
    (runDecisions ds (loadDeck initialSwipeState pl (.ok deck))).savedCount =
      keptSaves ds ∧
    (runDecisions ds (loadDeck initialSwipeState pl (.ok deck))).skippedCount =
      discards ds ∧
    ((∀ d ∈ ds, d.dir = SwipeDir.right → d.saveSucceeds = true) →
      (runDecisions ds (loadDeck initialSwipeState pl (.ok deck))).savedCount +
        (runDecisions ds (loadDeck initialSwipeState pl (.ok deck))).skippedCount =
        deck.length) ∧
    (∀ front : List Decision, front.length < deck.length →
      (runDecisions front (loadDeck initialSwipeState pl (.ok deck))).phase =
        SwipePhase.swiping) := by
  have hne : deck.length ≠ 0 := by omega
  rw [loadDeck_ok initialSwipeState pl deck hne]
  have hdsne : ds ≠ [] := by
    intro hnil
    rw [hnil] at hlen
    simp at hlen
    omega
  obtain ⟨hph, hsv, hsk⟩ := runDecisions_exhaust ds
    { phase := .swiping, deck := deck, currentIndex := 0, errorMsg := ""
      swipeLabel := initialSwipeState.swipeLabel, savedCount := 0, skippedCount := 0
      selectedPlaylist := some pl }
    rfl (by simpa using hlen) hdsne
  refine ⟨hph, by simpa using hsv, by simpa using hsk, ?_, ?_⟩
  · intro hall
    have hsum := keptSaves_add_discards ds hall
    simp at hsv hsk
    omega
  · intro front hfr
    have hp := runDecisions_progress front
      { phase := .swiping, deck := deck, currentIndex := 0, errorMsg := ""
        swipeLabel := initialSwipeState.swipeLabel, savedCount := 0, skippedCount := 0
        selectedPlaylist := some pl }
      rfl (by simpa using hfr)
    exact hp.1

/-- C2 witness: a two-card deck exhausted by a successful keep and a discard
ends in the `empty` phase with counter sum 2. -/
theorem swipe_deck_exhaustion_witness :
    (runDecisions [⟨SwipeDir.right, true⟩, ⟨SwipeDir.left, true⟩]
        (loadDeck initialSwipeState samplePlaylist
          (.ok [sampleTrack, sampleTrack2]))).phase = SwipePhase.empty ∧
    (runDecisions [⟨SwipeDir.right, true⟩, ⟨SwipeDir.left, true⟩]
        (loadDeck initialSwipeState samplePlaylist
          (.ok [sampleTrack, sampleTrack2]))).savedCount +
      (runDecisions [⟨SwipeDir.right, true⟩, ⟨SwipeDir.left, true⟩]
          (loadDeck initialSwipeState samplePlaylist
            (.ok [sampleTrack, sampleTrack2]))).skippedCount =
        [sampleTrack, sampleTrack2].length :=
  ⟨(swipe_deck_exhaustion samplePlaylist [sampleTrack, sampleTrack2]
      [⟨SwipeDir.right, true⟩, ⟨SwipeDir.left, true⟩] (by decide) (by decide)).1,
   (swipe_deck_exhaustion samplePlaylist [sampleTrack, sampleTrack2]
      [⟨SwipeDir.right, true⟩, ⟨SwipeDir.left, true⟩] (by decide) (by decide)).2.2.2.1
     (by decide)⟩

/-- C3: a keep decision from the card at index i advances the presenting
position exactly once — to index i+1, or to the exhausted phase when i is the
last index — identically whether the background save succeeded or failed, and
without touching the deck; this holds in both swipe-deck variants. -/
theorem keep_advances_exactly_once (s : SwipeState) (s2 : SwipeState2) (b b2 : Bool)
    (hpl : s.selectedPlaylist.isSome = true)
    (hidx : s.currentIndex < s.deck.length)
    (hidx2 : s2.currentIndex < s2.deck.length) :
    ((advanceCard s SwipeDir.right b).deck = s.deck ∧
     (s.currentIndex + 1 < s.deck.length →
       (advanceCard s SwipeDir.right b).currentIndex = s.currentIndex + 1 ∧
       (advanceCard s SwipeDir.right b).phase = s.phase) ∧
     (s.currentIndex + 1 = s.deck.length →
       (advanceCard s SwipeDir.right b).phase = SwipePhase.empty)) ∧
    ((advanceCard2 s2 SwipeDir.right b2).deck = s2.deck ∧
     (s2.currentIndex + 1 < s2.deck.length →
       (advanceCard2 s2 SwipeDir.right b2).currentIndex = s2.currentIndex + 1 ∧
       (advanceCard2 s2 SwipeDir.right b2).phase = s2.phase) ∧
     (s2.currentIndex + 1 = s2.deck.length →
       (advanceCard2 s2 SwipeDir.right b2).phase = SwipePhase2.empty)) := by
  obtain ⟨hd, _, _, _, hadv, hfin⟩ := advanceCard_step s SwipeDir.right b hpl hidx
  obtain ⟨hd2, hadv2, hfin2⟩ := advanceCard2_step s2 SwipeDir.right b2 hidx2
  exact ⟨⟨hd, hadv, fun h => (hfin h).1⟩, ⟨hd2, hadv2, fun h => (hfin2 h).1⟩⟩

/-- C3 witness: on a freshly loaded two-card deck, a keep whose save fails
still advances from index 0 to index 1, and in the fixed-deck variant a keep
on the last card of a one-card deck ends the flow in `empty`. -/
theorem keep_advances_exactly_once_witness :
    (advanceCard
        (loadDeck initialSwipeState samplePlaylist (.ok [sampleTrack, sampleTrack2]))
        SwipeDir.right false).currentIndex =
      (loadDeck initialSwipeState samplePlaylist
        (.ok [sampleTrack, sampleTrack2])).currentIndex + 1 ∧
    (advanceCard2 { initialSwipeState2 with deck := [sampleTrack], phase := .swiping }
        SwipeDir.right false).phase = SwipePhase2.empty :=
  ⟨((keep_advances_exactly_once
      (loadDeck initialSwipeState samplePlaylist (.ok [sampleTrack, sampleTrack2]))
      { initialSwipeState2 with deck := [sampleTrack], phase := .swiping }
      false false (by decide) (by decide) (by decide)).1.2.1 (by decide)).1,
   (keep_advances_exactly_once
      (loadDeck initialSwipeState samplePlaylist (.ok [sampleTrack, sampleTrack2]))
      { initialSwipeState2 with deck := [sampleTrack], phase := .swiping }
      false false (by decide) (by decide) (by decide)).2.2.2 (by decide)⟩

/-- C5: a failed generation request returns both wizards to the select-inputs
step, shows exactly the gateway's typed-error message (unmodified), does not
set a result artifact (the result cell is untouched by the failure path), and
leaves the prior selections — the selected show ids and the selected playlist
ids — unchanged. -/
theorem generate_failure_policy (d : DailyDriveState) (g : GymState) (msg : String) :
    (dailyHandleGenerate d (.error msg)).step = WizardStep.select ∧
    (dailyHandleGenerate d (.error msg)).errorMsg = msg ∧
    (dailyHandleGenerate d (.error msg)).result = d.result ∧
    (dailyHandleGenerate d (.error msg)).selectedShowIds = d.selectedShowIds ∧
    (gymHandleGenerate g (.error msg)).step = WizardStep.select ∧
    (gymHandleGenerate g (.error msg)).errorMsg = msg ∧
    (gymHandleGenerate g (.error msg)).result = g.result ∧
    (gymHandleGenerate g (.error msg)).selectedIds = g.selectedIds := by
  simp [dailyHandleGenerate, gymHandleGenerate]

/-- C6 counterexample: in the fixed-deck variant a deck fetch that returns an
empty track list does not send the flow back to its idle (`intro`) state —
the start handler sets the phase to `swiping` unconditionally after the
fetch. -/
theorem empty_fetch_counterexample :
    (handleStart initialSwipeState2 (.ok [])).phase = SwipePhase2.swiping ∧
    SwipePhase2.swiping ≠ SwipePhase2.intro := by
  refine ⟨rfl, by decide⟩

/-- C6 (amended): in the playlist-scoped flow an empty deck fetch returns to
the pick-playlist state with the distinct non-error "try another playlist"
message, a failed fetch returns there with the error message, and the retry
path stays available (selecting a playlist whose fetch yields a non-empty
deck presents it).  In the fixed-deck variant the fetch handler records the
corresponding message and leaves the deck and phase alone, but its start
handler then sets the phase to `swiping` even for an empty result instead of
returning to the idle state. -/
theorem empty_fetch_policy (s : SwipeState) (pl : Playlist) (s2 : SwipeState2)
    (msg : String) :
    (loadDeck s pl (.ok [])).phase = SwipePhase.pickPlaylist ∧
    (loadDeck s pl (.ok [])).errorMsg = emptyDeckMessage ∧
    (loadDeck s pl (.error msg)).phase = SwipePhase.pickPlaylist ∧
    (loadDeck s pl (.error msg)).errorMsg = msg ∧
    (∀ t : SwipeTrack,
      (loadDeck (loadDeck s pl (.ok [])) pl (.ok [t])).phase = SwipePhase.swiping) ∧
    (loadDeck2 s2 (.ok [])).errorMsg = emptyDeckMessage2 ∧
    (loadDeck2 s2 (.ok [])).phase = s2.phase ∧
    (loadDeck2 s2 (.ok [])).deck = s2.deck ∧
    (loadDeck2 s2 (.error msg)).errorMsg = msg ∧
    (handleStart s2 (.ok [])).phase = SwipePhase2.swiping := by
  simp [loadDeck, loadDeck2, handleStart, emptyDeckMessage, emptyDeckMessage2]

/-- C7: the "do again" reset returns each wizard to select-inputs; the daily
drive reset clears the prior show selection, while the gym reset leaves the
prior playlist selection (and the auto-refresh flag) untouched — so the
selection is retained in particular when auto-refresh was enabled. -/
theorem reset_selection_policy (d : DailyDriveState) (g : GymState) :
    (dailyHandleReset d).step = WizardStep.select ∧
    (dailyHandleReset d).selectedShowIds = [] ∧
    (gymHandleReset g).step = WizardStep.select ∧
    (gymHandleReset g).selectedIds = g.selectedIds ∧
    (gymHandleReset g).autoRefresh = g.autoRefresh := by
  simp [dailyHandleReset, gymHandleReset]

/-- C9: every track of a fetched swipe deck carries a non-empty preview
reference — the (spec-modelled) backend filter excludes candidates lacking
one, and the frontend `getSwipeDeck` returns the filtered deck unchanged. -/
theorem deck_tracks_have_preview (candidates : List RawTrack) (t : SwipeTrack)
    (ht : t ∈ getSwipeDeck candidates) : t.preview_url ≠ "" := by
  unfold getSwipeDeck swipeDeckEndpoint at ht
  obtain ⟨r, hr, rfl⟩ := List.mem_map.mp ht
  have hf := (List.mem_filter.mp hr).2
  cases hu : r.preview_url with
  | none => rw [hu] at hf; simp at hf
  | some u =>
      rw [hu] at hf
      simp at hf
      simpa [hu] using hf

/-- C9 witness: from one candidate with a preview and one without, the deck
contains the previewed track, whose preview reference is non-empty. -/
theorem deck_tracks_have_preview_witness :
    sampleTrack ∈ getSwipeDeck [sampleRawTrack, sampleRawTrackNoPreview] ∧
    sampleTrack.preview_url ≠ "" :=
  ⟨by decide,
   deck_tracks_have_preview [sampleRawTrack, sampleRawTrackNoPreview] sampleTrack
     (by decide)⟩

/-- `toggleLike` preserves disjointness of the liked and dismissed sets. -/
theorem toggleLike_disjoint (i : ℕ) (s : DiscoverLikeState)
    (h : s.liked ∩ s.dismissed = ∅) :
    (toggleLike i s).liked ∩ (toggleLike i s).dismissed = ∅ := by
  unfold toggleLike
  split_ifs with hi
  · apply Finset.eq_empty_iff_forall_not_mem.mpr
    intro x hx
    rw [Finset.mem_inter] at hx
    exact Finset.eq_empty_iff_forall_not_mem.mp h x
      (Finset.mem_inter.mpr ⟨Finset.mem_of_mem_erase hx.1, hx.2⟩)
  · apply Finset.eq_empty_iff_forall_not_mem.mpr
    intro x hx
    rw [Finset.mem_inter] at hx
    obtain ⟨hxl, hxd⟩ := hx
    rcases Finset.mem_insert.mp hxl with rfl | hxl2
    · exact (Finset.not_mem_erase x s.dismissed) hxd
    · exact Finset.eq_empty_iff_forall_not_mem.mp h x
        (Finset.mem_inter.mpr ⟨hxl2, Finset.mem_of_mem_erase hxd⟩)

/-- `toggleDismiss` preserves disjointness of the liked and dismissed sets. -/
theorem toggleDismiss_disjoint (i : ℕ) (s : DiscoverLikeState)
    (h : s.liked ∩ s.dismissed = ∅) :
    (toggleDismiss i s).liked ∩ (toggleDismiss i s).dismissed = ∅ := by
  unfold toggleDismiss
  split_ifs with hi
  · apply Finset.eq_empty_iff_forall_not_mem.mpr
    intro x hx
    rw [Finset.mem_inter] at hx
    exact Finset.eq_empty_iff_forall_not_mem.mp h x
      (Finset.mem_inter.mpr ⟨hx.1, Finset.mem_of_mem_erase hx.2⟩)
  · apply Finset.eq_empty_iff_forall_not_mem.mpr
    intro x hx
    rw [Finset.mem_inter] at hx
    obtain ⟨hxl, hxd⟩ := hx
    rcases Finset.mem_insert.mp hxd with rfl | hxd2
    · exact (Finset.not_mem_erase x s.liked) hxl
    · exact Finset.eq_empty_iff_forall_not_mem.mp h x
        (Finset.mem_inter.mpr ⟨Finset.mem_of_mem_erase hxl, hxd2⟩)

/-- Liking an index on a state with disjoint sets leaves it outside the
dismissed set. -/
theorem toggleLike_not_dismissed (i : ℕ) (s : DiscoverLikeState)
    (h : s.liked ∩ s.dismissed = ∅) : i ∉ (toggleLike i s).dismissed := by
  unfold toggleLike
  split_ifs with hi
  · intro hd
    exact Finset.eq_empty_iff_forall_not_mem.mp h i (Finset.mem_inter.mpr ⟨hi, hd⟩)
  · exact Finset.not_mem_erase i s.dismissed

/-- Dismissing an index on a state with disjoint sets leaves it outside the
liked set. -/
theorem toggleDismiss_not_liked (i : ℕ) (s : DiscoverLikeState)
    (h : s.liked ∩ s.dismissed = ∅) : i ∉ (toggleDismiss i s).liked := by
  unfold toggleDismiss
  split_ifs with hi
  · intro hl
    exact Finset.eq_empty_iff_forall_not_mem.mp h i (Finset.mem_inter.mpr ⟨hl, hi⟩)
  · exact Finset.not_mem_erase i s.liked

/-- The disjointness invariant holds along any run from a disjoint state. -/
theorem runToggles_disjoint (ops : List ToggleOp) :
    ∀ s : DiscoverLikeState, s.liked ∩ s.dismissed = ∅ →
      (runToggles ops s).liked ∩ (runToggles ops s).dismissed = ∅ := by
  induction ops with
  | nil => intro s hs; simpa [runToggles]
  | cons op ops ih =>
      intro s hs
      cases op with
      | like i => exact ih _ (toggleLike_disjoint i s hs)
      | dismiss i => exact ih _ (toggleDismiss_disjoint i s hs)

/-- C10: after every sequence of `toggleLike` / `toggleDismiss` operations
from the initial state, the liked and dismissed index sets are disjoint; on
any such reachable state, liking an index leaves it outside the dismissed set
and dismissing an index leaves it outside the liked set. -/
theorem liked_dismissed_disjoint (ops : List ToggleOp) (i : ℕ) :
    (runToggles ops initDiscoverLikeState).liked ∩
      (runToggles ops initDiscoverLikeState).dismissed = ∅ ∧
    i ∉ (toggleLike i (runToggles ops initDiscoverLikeState)).dismissed ∧
    i ∉ (toggleDismiss i (runToggles ops initDiscoverLikeState)).liked := by
  have h := runToggles_disjoint ops initDiscoverLikeState
    (by simp [initDiscoverLikeState])
  exact ⟨h, toggleLike_not_dismissed i _ h, toggleDismiss_not_liked i _ h⟩

end VibeSwipe
